import Mathlib

/-!
# Verification of the AS3600 concrete-beam capacity engine

Shallow embedding of the class `Concrete` from `src/concrete/conc.py`.
Python floats are modelled as real numbers; `math.floor` is `Int.floor`;
`math.pi` is `Real.pi`; `x ** 0.5` is `Real.sqrt x`; `x ** (1/3)` is the
real power `x ^ ((1:ℝ)/3)`. A Python function that can raise is
modelled as returning `Except PyErr _`.
-/

open Real

/-- Runtime errors the Python code can raise. -/
inductive PyErr where
  /-- NameError raised by `Concrete.shear`, whose return expression
  `Vuc * phi * ks` references the name `ks`, which is not defined
  anywhere in the program. -/
  | nameError
  /-- ZeroDivisionError raised in `__init__` by `b / spacing` when
  `spacing = 0`. -/
  | zeroDivisionError
  deriving DecidableEq, Repr

/-- State of a `Concrete` object: the constructor parameters stored by
`__init__` together with the derived attributes it computes
(`self.D`, ..., `self.d`, `self.fctf`, `self.Ast`, `self.a2`,
`self.gamma`). -/
structure Concrete where
  D : ℝ
  b : ℝ
  cover : ℝ
  fc : ℝ
  diameter : ℝ
  spacing : ℝ
  ductility : String
  fsy : ℝ
  d : ℝ
  fctf : ℝ
  Ast : ℝ
  a2 : ℝ
  gamma : ℝ

namespace Concrete

/-- Object produced by `Concrete.__init__` when it does not raise.
The optional parameter `d` is `Option ℝ` (`None` is `none`); the Python
test `if d:` is truthiness, so both `None` and `0` fall through to the
geometric derivation `D - cover - diameter / 2`. -/
noncomputable def initSection (D b cover fc diameter spacing : ℝ) (ductility : String)
    (fsy : ℝ) (dopt : Option ℝ) : Concrete :=
  { D := D, b := b, cover := cover, fc := fc, diameter := diameter,
    spacing := spacing, ductility := ductility, fsy := fsy,
    -- if d is set than use d, else calculate
    d := match dopt with
      | some x => if x = 0 then D - cover - diameter / 2 else x
      | none => D - cover - diameter / 2,
    -- self.fctf = 0.6 * (fc ** 0.5)
    fctf := 0.6 * Real.sqrt fc,
    -- A_bar = floor(diameter ** 2 * pi / 4); self.Ast = A_bar * (b / spacing)
    Ast := (⌊diameter ^ 2 * Real.pi / 4⌋ : ℤ) * (b / spacing),
    -- self.a2 = max(0.85 - 0.0015 * fc, 0.67)
    a2 := max (0.85 - 0.0015 * fc) 0.67,
    -- self.gamma = max(0.97 - 0.0025 * fc, 0.67)
    gamma := max (0.97 - 0.0025 * fc) 0.67 }

/-- Embedding of `Concrete.__init__`. The only failure it can raise is
a ZeroDivisionError from `b / spacing` when `spacing = 0`; no input
validation of any kind is performed by the code. -/
noncomputable def init (D b cover fc diameter spacing : ℝ) (ductility : String)
    (fsy : ℝ) (dopt : Option ℝ) : Except PyErr Concrete :=
  if spacing = 0 then
    Except.error PyErr.zeroDivisionError
  else
    Except.ok (initSection D b cover fc diameter spacing ductility fsy dopt)

/-- Validity of a section, as used by the spec: every supplied scalar
parameter is positive and the effective depth lies in `(0, D]`. -/
def valid (s : Concrete) : Prop :=
  0 < s.D ∧ 0 < s.b ∧ 0 < s.fc ∧ 0 < s.fsy ∧ 0 < s.diameter ∧
    0 < s.spacing ∧ 0 < s.d ∧ s.d ≤ s.D

/-- Derived-attribute equations satisfied by every object produced by
`__init__` (the fully-derived Section of the spec). -/
def derived (s : Concrete) : Prop :=
  s.fctf = 0.6 * Real.sqrt s.fc ∧
    s.Ast = (⌊s.diameter ^ 2 * Real.pi / 4⌋ : ℤ) * (s.b / s.spacing) ∧
    s.a2 = max (0.85 - 0.0015 * s.fc) 0.67 ∧
    s.gamma = max (0.97 - 0.0025 * s.fc) 0.67

/-- Embedding of `Concrete.plain_concrete_bending`: the local `D` is
`self.D` reduced by 50 mm, `phi = 0.6`, `F = fctf * b * D/2`,
`Muo = (F * D*2/3) / 10^6`, and the method returns `Muo * phi`. -/
noncomputable def plain_concrete_bending (self : Concrete) : ℝ :=
  let D := self.D - 50
  let fctf := self.fctf
  let b := self.b
  let phi : ℝ := 0.6
  let F := fctf * b * D / 2
  let Muo := (F * D * 2 / 3) / 10 ^ 6
  Muo * phi

/-- Embedding of `Concrete.plain_concrete_shear`: the local `D` is
`self.D` reduced by 50 mm, `phi = 0.6`,
`Vu = 0.15 * b * D * fc**(1/3) / 1000`, and the method returns
`Vu * phi`. -/
noncomputable def plain_concrete_shear (self : Concrete) : ℝ :=
  let b := self.b
  let D := self.D - 50
  let fc := self.fc
  let phi : ℝ := 0.6
  let Vu := 0.15 * b * D * fc ^ ((1 : ℝ) / 3) / 1000
  Vu * phi

/-- Local `dn = (Ast * fsy) / (a2 * fc * b * gamma)` of
`Concrete.bending`. -/
noncomputable def bending_dn (self : Concrete) : ℝ :=
  (self.Ast * self.fsy) / (self.a2 * self.fc * self.b * self.gamma)

/-- Local `ku = dn / d` of `Concrete.bending`. -/
noncomputable def bending_ku (self : Concrete) : ℝ :=
  self.bending_dn / self.d

/-- Local `Muo = (Ast * fsy) * (d - 0.5 * gamma * ku * d) / (10 ** 6)`
of `Concrete.bending`. -/
noncomputable def bending_Muo (self : Concrete) : ℝ :=
  (self.Ast * self.fsy) * (self.d - 0.5 * self.gamma * self.bending_ku * self.d) / 10 ^ 6

/-- Ductility branch of `Concrete.bending` selecting `phi`:
`"l"`/`"L"` gives 0.65; `"n"`/`"N"` gives
`min(max(1.24 - 13*ku/12, 0.65), 0.85)`; anything else gives 0.65. -/
noncomputable def bending_phi (self : Concrete) : ℝ :=
  if self.ductility = "l" ∨ self.ductility = "L" then 0.65
  else if self.ductility = "n" ∨ self.ductility = "N" then
    min (max (1.24 - 13 * self.bending_ku / 12) 0.65) 0.85
  else 0.65

/-- Embedding of `Concrete.bending`: returns `Muo * phi`. -/
noncomputable def bending (self : Concrete) : ℝ :=
  self.bending_Muo * self.bending_phi

/-- Local `dv = max(0.72 * D, 0.9 * d)` of `Concrete.shear`. -/
noncomputable def shear_dv (self : Concrete) : ℝ :=
  max (0.72 * self.D) (0.9 * self.d)

/-- Local `kv = min(0.1, 200 / (1000 + 1.3 * dv))` of
`Concrete.shear`. -/
noncomputable def shear_kv (self : Concrete) : ℝ :=
  min 0.1 (200 / (1000 + 1.3 * self.shear_dv))

/-- Local `Vuc = kv * bv * dv * min(8, fc ** 0.5) / 1000` of
`Concrete.shear` (with `bv = b`). -/
noncomputable def shear_Vuc (self : Concrete) : ℝ :=
  self.shear_kv * self.b * self.shear_dv * min 8 (Real.sqrt self.fc) / 1000

/-- Local `phi = 0.7` of `Concrete.shear`. -/
def shear_phi (_self : Concrete) : ℝ := 0.7

/-- Embedding of `Concrete.shear`. The body binds `phi = 0.7`, `dv`,
`bv = b`, `thetav = 36`, `kv` and `Vuc`, then evaluates
`return Vuc * phi * ks`; the name `ks` is not defined anywhere in the
program, so every call raises NameError and no value is returned. -/
noncomputable def shear (self : Concrete) : Except PyErr ℝ :=
  let phi := self.shear_phi
  let dv := self.shear_dv
  let bv := self.b
  let thetav : ℝ := 36
  let kv := self.shear_kv
  let Vuc := self.shear_Vuc
  -- `return Vuc * phi * ks` : `ks` is an undefined name, so NameError
  Except.error PyErr.nameError

/-- Embedding of `Concrete.deemed`:
`A_min = b * d * f * (D / d) ** 2 * fctf / fsy`. -/
noncomputable def deemed (self : Concrete) (f : ℝ := 0.2) : ℝ :=
  self.b * self.d * f * (self.D / self.d) ^ 2 * self.fctf / self.fsy

end Concrete

/-! ## Concrete sections used as witnesses

`secDefault` is the section built from the documented default
parameters of `__init__` (D=200, b=1000, cover=20, fc=32, diameter=7.6,
spacing=100, ductility="L", fsy=500, d=None). The others vary the
ductility string, the depth and strength, or supply a non-positive
depth. -/

/-- Section from the default constructor parameters. -/
noncomputable def secDefault : Concrete :=
  Concrete.initSection 200 1000 20 32 7.6 100 "L" 500 none

/-- Default parameters with ductility "N". -/
noncomputable def secN : Concrete :=
  Concrete.initSection 200 1000 20 32 7.6 100 "N" 500 none

/-- Default parameters with an unrecognised ductility string. -/
noncomputable def secOther : Concrete :=
  Concrete.initSection 200 1000 20 32 7.6 100 "Q" 500 none

/-- Section with D=500, fc=50, other parameters default. -/
noncomputable def secD500 : Concrete :=
  Concrete.initSection 500 1000 20 50 7.6 100 "L" 500 none

/-- Section built from a negative overall depth D = -5. -/
noncomputable def secNegD : Concrete :=
  Concrete.initSection (-5) 1000 20 32 7.6 100 "L" 500 none

theorem secDefault_init :
    Concrete.init 200 1000 20 32 7.6 100 "L" 500 none = Except.ok secDefault := by
  unfold Concrete.init
  rw [if_neg (by norm_num : ¬(100 : ℝ) = 0)]
  rfl

theorem secDefault_valid : secDefault.valid := by
  norm_num [secDefault, Concrete.initSection, Concrete.valid]

theorem secDefault_derived : secDefault.derived :=
  ⟨rfl, rfl, rfl, rfl⟩

/-! ## Claims -/

/-- C6: For every Section, construction computes the derived fields
exactly as `fctf = 0.6 * sqrt(fc)`,
`Ast = floor(pi * diameter^2 / 4) * (b / spacing)` with the per-bar
area floored before scaling, `a2 = max(0.85 - 0.0015*fc, 0.67)` and
`gamma = max(0.97 - 0.0025*fc, 0.67)`, each clamped to the floor 0.67;
in particular at `fc = 200` both `a2` and `gamma` equal 0.67 exactly. -/
theorem init_derived_fields_exact (D b cover fc diameter spacing : ℝ)
    (ductility : String) (fsy : ℝ) (dopt : Option ℝ) (s : Concrete)
    (h : Concrete.init D b cover fc diameter spacing ductility fsy dopt = Except.ok s) :
    s.fctf = 0.6 * Real.sqrt fc ∧
    s.Ast = (⌊Real.pi * diameter ^ 2 / 4⌋ : ℤ) * (b / spacing) ∧
    s.a2 = max (0.85 - 0.0015 * fc) 0.67 ∧
    s.gamma = max (0.97 - 0.0025 * fc) 0.67 ∧
    (fc = 200 → s.a2 = 0.67 ∧ s.gamma = 0.67) := by
  by_cases hsp : spacing = 0
  · rw [Concrete.init, if_pos hsp] at h
    exact absurd h (by simp)
  · rw [Concrete.init, if_neg hsp] at h
    injection h with h
    subst h
    refine ⟨rfl, ?_, rfl, rfl, ?_⟩
    · show ((⌊diameter ^ 2 * Real.pi / 4⌋ : ℤ) : ℝ) * (b / spacing) = _
      have harg : diameter ^ 2 * Real.pi / 4 = Real.pi * diameter ^ 2 / 4 := by ring
      rw [harg]
    · intro hfc
      subst hfc
      constructor
      · show max (0.85 - 0.0015 * (200 : ℝ)) 0.67 = 0.67
        rw [max_eq_right (by norm_num)]
      · show max (0.97 - 0.0025 * (200 : ℝ)) 0.67 = 0.67
        rw [max_eq_right (by norm_num)]

/-- Witness for C6: the derived-field equations hold for the section
built from the default constructor parameters. -/
theorem init_derived_fields_exact_witness :
    secDefault.fctf = 0.6 * Real.sqrt 32 ∧
    secDefault.Ast = (⌊Real.pi * (7.6 : ℝ) ^ 2 / 4⌋ : ℤ) * (1000 / 100) ∧
    secDefault.a2 = max (0.85 - 0.0015 * 32) 0.67 ∧
    secDefault.gamma = max (0.97 - 0.0025 * 32) 0.67 ∧
    ((32 : ℝ) = 200 → secDefault.a2 = 0.67 ∧ secDefault.gamma = 0.67) :=
  init_derived_fields_exact 200 1000 20 32 7.6 100 "L" 500 none secDefault secDefault_init

/-- C4: For every Section, `bending()` computes
`dn = (Ast * fsy) / (a2 * fc * b * gamma)`, `ku = dn / d`,
`Muo = Ast * fsy * (d - 0.5 * gamma * ku * d) / 1e6`, and returns
`Muo * phi`. The function is a pure function of the section state and
places no side condition on `ku`, so non-physical values such as
`ku > 1` propagate into the result. Stated for every section, which
subsumes the valid ones. -/
theorem bending_formula (s : Concrete) :
    Concrete.bending s = Concrete.bending_Muo s * Concrete.bending_phi s ∧
    Concrete.bending_dn s = (s.Ast * s.fsy) / (s.a2 * s.fc * s.b * s.gamma) ∧
    Concrete.bending_ku s = Concrete.bending_dn s / s.d ∧
    Concrete.bending_Muo s
      = (s.Ast * s.fsy) * (s.d - 0.5 * s.gamma * Concrete.bending_ku s * s.d) / 10 ^ 6 :=
  ⟨rfl, rfl, rfl, rfl⟩

/-- C5: For every Section, the reduction factor used by `bending()` is
0.65 when ductility is "L" or "l"; it is
`min(max(1.24 - 13*ku/12, 0.65), 0.85)` — hence always within
`[0.65, 0.85]` for arbitrary `ku` — when ductility is "N" or "n"; and
0.65 for any other ductility value. Stated for every section, which
subsumes the valid ones. -/
theorem bending_phi_cases (s : Concrete) :
    ((s.ductility = "L" ∨ s.ductility = "l") → Concrete.bending_phi s = 0.65) ∧
    ((s.ductility = "N" ∨ s.ductility = "n") →
      Concrete.bending_phi s
        = min (max (1.24 - 13 * Concrete.bending_ku s / 12) 0.65) 0.85 ∧
      0.65 ≤ Concrete.bending_phi s ∧ Concrete.bending_phi s ≤ 0.85) ∧
    ((s.ductility ≠ "L" ∧ s.ductility ≠ "l" ∧ s.ductility ≠ "N" ∧ s.ductility ≠ "n") →
      Concrete.bending_phi s = 0.65) := by
  refine ⟨?_, ?_, ?_⟩
  · rintro (h | h)
    · unfold Concrete.bending_phi
      rw [if_pos (Or.inr h)]
    · unfold Concrete.bending_phi
      rw [if_pos (Or.inl h)]
  · intro h
    have h1 : ¬(s.ductility = "l" ∨ s.ductility = "L") := by
      rcases h with h | h <;> rw [h] <;> decide
    have h2 : s.ductility = "n" ∨ s.ductility = "N" := h.symm
    unfold Concrete.bending_phi
    rw [if_neg h1, if_pos h2]
    exact ⟨rfl, le_min (le_max_right _ _) (by norm_num), min_le_right _ _⟩
  · rintro ⟨hL, hl, hN, hn⟩
    unfold Concrete.bending_phi
    rw [if_neg (not_or.mpr ⟨hl, hL⟩), if_neg (not_or.mpr ⟨hn, hN⟩)]

/-- Witness for C5: the three branches exercised on concrete sections
with ductility "L", "N" and "Q". -/
theorem bending_phi_cases_witness :
    Concrete.bending_phi secDefault = 0.65 ∧
    Concrete.bending_phi secN
      = min (max (1.24 - 13 * Concrete.bending_ku secN / 12) 0.65) 0.85 ∧
    Concrete.bending_phi secOther = 0.65 :=
  ⟨(bending_phi_cases secDefault).1 (Or.inl rfl),
   ((bending_phi_cases secN).2.1 (Or.inl rfl)).1,
   (bending_phi_cases secOther).2.2 ⟨by decide, by decide, by decide, by decide⟩⟩

/-- C1 (amended): For every section, `shear()` computes
`dv = max(0.72*D, 0.9*d)`, `kv = min(0.1, 200/(1000 + 1.3*dv))` and
`Vuc = kv * bv * dv * min(8, sqrt(fc)) / 1000`, but its fixed reduction
factor is `phi = 0.7`, not 0.75, and its return expression
`Vuc * phi * ks` references the undefined name `ks`, so every call
raises NameError and returns no value. The retained angle parameter
`thetav` indeed has no numeric effect. -/
theorem shear_actual_behaviour (s : Concrete) :
    Concrete.shear_dv s = max (0.72 * s.D) (0.9 * s.d) ∧
    Concrete.shear_kv s = min 0.1 (200 / (1000 + 1.3 * Concrete.shear_dv s)) ∧
    Concrete.shear_Vuc s
      = Concrete.shear_kv s * s.b * Concrete.shear_dv s * min 8 (Real.sqrt s.fc) / 1000 ∧
    Concrete.shear_phi s = 0.7 ∧
    Concrete.shear s = Except.error PyErr.nameError :=
  ⟨rfl, rfl, rfl, rfl, rfl⟩

/-- Counterexample to C1 as stated: on the valid section with D=500 and
fc=50, `shear()` does not return `Vuc * 0.75` — it raises NameError —
and the local reduction factor the code defines is 0.7, not 0.75. -/
theorem shear_not_spec_phi075 :
    Concrete.shear secD500 = Except.error PyErr.nameError ∧
    Concrete.shear secD500 ≠ Except.ok (Concrete.shear_Vuc secD500 * 0.75) ∧
    Concrete.shear_phi secD500 = 0.7 :=
  ⟨rfl, fun hcon => Except.noConfusion hcon, rfl⟩

/-- C3 (code bug): the section built from the default parameters is
valid, yet `shear()` raises NameError on it because its return
expression references the undefined name `ks` — contradicting both the
claim and the docstring of `shear`, which promises a returned shear
capacity. -/
theorem shear_raises_on_valid_default :
    secDefault.valid ∧ Concrete.shear secDefault = Except.error PyErr.nameError :=
  ⟨secDefault_valid, rfl⟩

/-- C2 (amended): construction performs no input validation and no
`InvalidParameter` error exists in the program. For every input with
`spacing ≠ 0` — including non-positive `D`, `b`, `fc`, `fsy`,
`diameter` and a derived `d` outside `(0, D]` — a fully-derived
Section is returned; when `spacing = 0` construction raises
ZeroDivisionError (from `b / spacing`). -/
theorem construction_no_validation (D b cover fc diameter spacing : ℝ)
    (ductility : String) (fsy : ℝ) (dopt : Option ℝ) :
    (spacing ≠ 0 →
      Concrete.init D b cover fc diameter spacing ductility fsy dopt
        = Except.ok (Concrete.initSection D b cover fc diameter spacing ductility fsy dopt) ∧
      (Concrete.initSection D b cover fc diameter spacing ductility fsy dopt).derived) ∧
    (spacing = 0 →
      Concrete.init D b cover fc diameter spacing ductility fsy dopt
        = Except.error PyErr.zeroDivisionError) := by
  constructor
  · intro hsp
    rw [Concrete.init, if_neg hsp]
    exact ⟨rfl, rfl, rfl, rfl, rfl⟩
  · intro hsp
    rw [Concrete.init, if_pos hsp]

/-- Witness for C2 (amended): at `D = -5` with the other parameters
default, construction succeeds and yields a fully-derived section. -/
theorem construction_no_validation_witness :
    Concrete.init (-5) 1000 20 32 7.6 100 "L" 500 none = Except.ok secNegD ∧
    secNegD.derived :=
  (construction_no_validation (-5) 1000 20 32 7.6 100 "L" 500 none).1 (by norm_num)

/-- Counterexample to C2 as stated: with the non-positive input
`D = -5`, construction does not fail — it returns a Section — and the
derived `d = -28.8` lies outside `(0, D]`. -/
theorem construction_accepts_invalid_inputs :
    Concrete.init (-5) 1000 20 32 7.6 100 "L" 500 none = Except.ok secNegD ∧
    secNegD.d < 0 ∧ ¬(0 < secNegD.d ∧ secNegD.d ≤ secNegD.D) := by
  refine ⟨?_, ?_, ?_⟩
  · rw [Concrete.init, if_neg (by norm_num : ¬(100 : ℝ) = 0)]
    rfl
  · show (-5 : ℝ) - 20 - 7.6 / 2 < 0
    norm_num
  · rintro ⟨hpos, -⟩
    have hneg : secNegD.d < 0 := by
      show (-5 : ℝ) - 20 - 7.6 / 2 < 0
      norm_num
    linarith

/-- C7 (amended): for every supplied nonzero explicit `d`, construction
stores exactly the supplied value in `section.d`, independent of
`cover` and `diameter` and with no consistency validation; but a
supplied `d = 0` is falsy under the Python `if d:` test and falls back
to the geometric derivation. -/
theorem explicit_d_override (D b cover fc diameter spacing : ℝ)
    (ductility : String) (fsy x : ℝ) (hx : x ≠ 0) (hsp : spacing ≠ 0) :
    Concrete.init D b cover fc diameter spacing ductility fsy (some x)
      = Except.ok (Concrete.initSection D b cover fc diameter spacing ductility fsy (some x)) ∧
    (Concrete.initSection D b cover fc diameter spacing ductility fsy (some x)).d = x := by
  constructor
  · rw [Concrete.init, if_neg hsp]
  · show (if x = 0 then D - cover - diameter / 2 else x) = x
    exact if_neg hx

/-- Witness for C7 (amended): supplying `d = 42` with the default
parameters yields a section whose `d` is exactly 42. -/
theorem explicit_d_override_witness :
    Concrete.init 200 1000 20 32 7.6 100 "L" 500 (some 42)
      = Except.ok (Concrete.initSection 200 1000 20 32 7.6 100 "L" 500 (some 42)) ∧
    (Concrete.initSection 200 1000 20 32 7.6 100 "L" 500 (some 42)).d = 42 :=
  explicit_d_override 200 1000 20 32 7.6 100 "L" 500 42 (by norm_num) (by norm_num)

/-- Counterexample to C7 as stated: supplying the explicit value
`d = 0` does not yield `section.d = 0`; the Python truthiness test
treats 0 like None and the geometric derivation
`200 - 20 - 7.6/2 = 176.2` is stored instead. -/
theorem explicit_d_zero_not_respected :
    Concrete.init 200 1000 20 32 7.6 100 "L" 500 (some 0)
      = Except.ok (Concrete.initSection 200 1000 20 32 7.6 100 "L" 500 (some 0)) ∧
    (Concrete.initSection 200 1000 20 32 7.6 100 "L" 500 (some 0)).d = 176.2 ∧
    (176.2 : ℝ) ≠ 0 := by
  refine ⟨?_, ?_, by norm_num⟩
  · rw [Concrete.init, if_neg (by norm_num : ¬(100 : ℝ) = 0)]
  · show (if (0 : ℝ) = 0 then (200 : ℝ) - 20 - 7.6 / 2 else 0) = 176.2
    rw [if_pos rfl]
    norm_num

/-- Formula of the spec (section 4.4) for the plain-concrete bending
capacity, written as `phi * Muo` with `phi = 0.6`,
`F = fctf * b * (D-50)/2` and `Muo = F * (D-50) * 2/3 / 1e6` — a
function of `fctf`, `b` and `D` only. -/
noncomputable def plain_bending_spec (fctf b D : ℝ) : ℝ :=
  0.6 * (fctf * b * (D - 50) / 2 * (D - 50) * 2 / 3 / 10 ^ 6)

/-- Formula of the spec (section 4.4) for the plain-concrete shear
capacity, written as `phi * Vu` with `phi = 0.6` and
`Vu = 0.15 * b * (D-50) * fc^(1/3) / 1000` — a function of `b`, `D`
and `fc` only. -/
noncomputable def plain_shear_spec (b D fc : ℝ) : ℝ :=
  0.6 * (0.15 * b * (D - 50) * fc ^ ((1 : ℝ) / 3) / 1000)

/-- C8: For every section, `plain_concrete_bending()` returns
`phi * Muo` with `phi = 0.6`, `F = fctf * b * (D-50)/2` and
`Muo = F * (D-50) * 2/3 / 1e6`, and `plain_concrete_shear()` returns
`phi * Vu` with `phi = 0.6` and
`Vu = 0.15 * b * (D-50) * fc^(1/3) / 1000`. Both factor through
functions of `fctf`, `b`, `D`, `fc` alone, so they are independent of
the reinforcement fields, and the equations hold for every section
with no clamp when `D - 50` is non-positive (which subsumes the valid
sections). -/
theorem plain_concrete_matches_spec (s : Concrete) :
    Concrete.plain_concrete_bending s = plain_bending_spec s.fctf s.b s.D ∧
    Concrete.plain_concrete_shear s = plain_shear_spec s.b s.D s.fc := by
  constructor
  · show s.fctf * s.b * (s.D - 50) / 2 * (s.D - 50) * 2 / 3 / 10 ^ 6 * 0.6 = _
    rw [plain_bending_spec]
    ring
  · show 0.15 * s.b * (s.D - 50) * s.fc ^ ((1 : ℝ) / 3) / 1000 * 0.6 = _
    rw [plain_shear_spec]
    ring

/-- C9: For every valid and fully-derived section and every factor
`f ≥ 0`, `deemed(f)` returns exactly
`b * d * f * (D/d)^2 * fctf / fsy` with no clamping, and the result is
non-negative. -/
theorem deemed_formula_nonneg (s : Concrete) (f : ℝ)
    (hval : s.valid) (hder : s.derived) (hf : 0 ≤ f) :
    Concrete.deemed s f = s.b * s.d * f * (s.D / s.d) ^ 2 * s.fctf / s.fsy ∧
    0 ≤ Concrete.deemed s f := by
  obtain ⟨hD, hb, hfc, hfsy, hdia, hsp, hd, hdD⟩ := hval
  refine ⟨rfl, ?_⟩
  have hfctf : 0 ≤ s.fctf := by
    rw [hder.1]
    positivity
  show 0 ≤ s.b * s.d * f * (s.D / s.d) ^ 2 * s.fctf / s.fsy
  have h1 : 0 ≤ s.b * s.d * f * (s.D / s.d) ^ 2 * s.fctf :=
    mul_nonneg (mul_nonneg (mul_nonneg (mul_nonneg hb.le hd.le) hf) (sq_nonneg _)) hfctf
  exact div_nonneg h1 hfsy.le

/-- Witness for C9 at the default section with the default factor
`f = 0.2`. -/
theorem deemed_formula_nonneg_witness :
    Concrete.deemed secDefault 0.2
      = secDefault.b * secDefault.d * 0.2 * (secDefault.D / secDefault.d) ^ 2
          * secDefault.fctf / secDefault.fsy ∧
    0 ≤ Concrete.deemed secDefault 0.2 :=
  deemed_formula_nonneg secDefault 0.2 secDefault_valid secDefault_derived (by norm_num)

/-- C10: For every fully-derived section with `fc > 0` and `b > 0`,
`plain_concrete_bending()` equals
`0.6 * fctf * b * (D-50)^2 / 3 / 1e6` — the `(D-50)` term enters
squared — and is non-negative even when `D ≤ 50`, whereas
`plain_concrete_shear()` is strictly negative exactly when `D < 50`
and zero at `D = 50`. -/
theorem plain_concrete_sign_behaviour (s : Concrete) (hder : s.derived)
    (hfc : 0 < s.fc) (hb : 0 < s.b) :
    Concrete.plain_concrete_bending s
      = 0.6 * (s.fctf * s.b * (s.D - 50) ^ 2 / 3 / 10 ^ 6) ∧
    0 ≤ Concrete.plain_concrete_bending s ∧
    (Concrete.plain_concrete_shear s < 0 ↔ s.D < 50) ∧
    (s.D = 50 → Concrete.plain_concrete_shear s = 0) := by
  have hbform : Concrete.plain_concrete_bending s
      = 0.6 * (s.fctf * s.b * (s.D - 50) ^ 2 / 3 / 10 ^ 6) := by
    show s.fctf * s.b * (s.D - 50) / 2 * (s.D - 50) * 2 / 3 / 10 ^ 6 * 0.6 = _
    ring
  have hsform : Concrete.plain_concrete_shear s
      = 0.15 * s.b * s.fc ^ ((1 : ℝ) / 3) / 1000 * 0.6 * (s.D - 50) := by
    show 0.15 * s.b * (s.D - 50) * s.fc ^ ((1 : ℝ) / 3) / 1000 * 0.6 = _
    ring
  have hfctf : 0 ≤ s.fctf := by
    rw [hder.1]
    positivity
  have hrt : 0 < s.fc ^ ((1 : ℝ) / 3) := Real.rpow_pos_of_pos hfc _
  have hK : 0 < 0.15 * s.b * s.fc ^ ((1 : ℝ) / 3) / 1000 * 0.6 :=
    mul_pos
      (div_pos (mul_pos (mul_pos (by norm_num) hb) hrt) (by norm_num))
      (by norm_num)
  refine ⟨hbform, ?_, ?_, ?_⟩
  · rw [hbform]
    have h1 : 0 ≤ s.fctf * s.b * (s.D - 50) ^ 2 :=
      mul_nonneg (mul_nonneg hfctf hb.le) (sq_nonneg _)
    have h2 : 0 ≤ s.fctf * s.b * (s.D - 50) ^ 2 / 3 / 10 ^ 6 :=
      div_nonneg (div_nonneg h1 (by norm_num)) (by norm_num)
    exact mul_nonneg (by norm_num) h2
  · rw [hsform]
    constructor
    · intro hneg
      by_contra hge
      push_neg at hge
      have hnn : 0 ≤ 0.15 * s.b * s.fc ^ ((1 : ℝ) / 3) / 1000 * 0.6 * (s.D - 50) :=
        mul_nonneg hK.le (by linarith)
      linarith
    · intro hlt
      exact mul_neg_of_pos_of_neg hK (by linarith)
  · intro h50
    rw [hsform, h50]
    ring

/-- Witness for C10 at the default section. -/
theorem plain_concrete_sign_behaviour_witness :
    Concrete.plain_concrete_bending secDefault
      = 0.6 * (secDefault.fctf * secDefault.b * (secDefault.D - 50) ^ 2 / 3 / 10 ^ 6) ∧
    0 ≤ Concrete.plain_concrete_bending secDefault ∧
    (Concrete.plain_concrete_shear secDefault < 0 ↔ secDefault.D < 50) ∧
    (secDefault.D = 50 → Concrete.plain_concrete_shear secDefault = 0) :=
  plain_concrete_sign_behaviour secDefault secDefault_derived
    secDefault_valid.2.2.1 secDefault_valid.2.1
